import Mathlib

/-!
Verification development for the `nextInvest` gateway handler
(`src/api/analyze.js`).  The repository ships two variants of the same
serverless handler in that file: a basic one (first half, referred to
here as `handler1`) and a retry-enabled one ("全機能統合・自動再試行機能付き",
second half, referred to here as `handler2`).  Both are embedded
shallowly below: JavaScript values appearing in request bodies are
modelled by `Json`, the upstream generative-AI endpoint is modelled as
an oracle mapping the attempt index to an observed `UpstreamResult`,
and each handler is a pure function from (method, credential, request
body, upstream oracle) to the HTTP response it produces together with
the trace of upstream requests issued and back-off delays slept.
-/

/-- JSON values (as produced by `JSON.parse` and carried in request
bodies).  A numeric literal with neither fraction nor exponent part is
kept as its exact integer (`num`); any other accepted numeric literal
(fractional and/or exponent notation) is kept as its exact lexeme
(`numNonInt`) rather than as a float — the handlers never compute with
numbers, so only acceptance and identity matter here.  (The double
rounding JavaScript applies to integers beyond 2^53 and to non-trivial
lexemes is not modelled; no theorem below touches such values.) -/
inductive Json where
  | null : Json
  | bool (b : Bool) : Json
  | num (n : Int) : Json
  | numNonInt (lexeme : String) : Json
  | str (s : String) : Json
  | arr (elems : List Json) : Json
  | obj (fields : List (String × Json)) : Json

mutual

/-- JavaScript string coercion (`String(v)`, as performed by template
literals such as `` `分析対象: ${query}` ``): strings pass through,
`null` prints as `"null"`, booleans and integers print in the usual
way, plain objects print as `"[object Object]"`, and arrays join their
elements with `","` with `null` elements contributing the empty
string. -/
def jsToString : Json → String
  | .null => "null"
  | .bool b => cond b "true" "false"
  | .num n => toString n
  | .numNonInt lexeme => lexeme
  | .str s => s
  | .obj _ => "[object Object]"
  | .arr elems => jsArrJoin elems

def jsArrJoin : List Json → String
  | [] => ""
  | x :: rest =>
    (match x with
     | .null => ""
     | x' => jsToString x') ++
    (match rest with
     | [] => ""
     | _ => "," ++ jsArrJoin rest)

end

/-- Coercion of a possibly-`undefined` JavaScript value to a string
(`undefined` prints as `"undefined"`, e.g. in `` `対象: ${query}` ``
when no `query` field was sent). -/
def jsToStringOpt : Option Json → String
  | none => "undefined"
  | some j => jsToString j

/-- Whether a lexeme-kept JSON number denotes zero (all mantissa
digits `0`; the exponent is irrelevant). -/
def jsonNumLexemeIsZero (lexeme : String) : Bool :=
  (lexeme.data.takeWhile (fun c => !(c == 'e' || c == 'E'))).all
    (fun c => c == '0' || c == '.' || c == '-')

/-- JavaScript truthiness of a possibly-`undefined` value (used by
`systemPrompt || …` and `query ? … : …`). -/
def jsTruthy : Option Json → Bool
  | none => false
  | some .null => false
  | some (.bool b) => b
  | some (.num n) => n != 0
  | some (.numNonInt lexeme) => !jsonNumLexemeIsZero lexeme
  | some (.str s) => s != ""
  | some (.arr _) => true
  | some (.obj _) => true

/-- JavaScript `m || d` on a possibly-`undefined` string (as in
`errData.error?.message || 'API通信エラー'`): the fallback applies when
the value is absent *or falsy*, i.e. also for the empty string. -/
def jsOrElse (m : Option String) (d : String) : String :=
  match m with
  | some s => if s == "" then d else s
  | none => d

/-- Property access `bodyData.f` on a parsed body: looks the field up
on an object (later duplicate keys win, as in `JSON.parse`), and is
`undefined` (`none`) on every non-object value. -/
def getField : Json → String → Option Json
  | .obj fields, k => (fields.reverse.find? (fun p => p.1 == k)).map (·.2)
  | _, _ => none

/-- Strict string comparison `v === "s"` against a possibly-`undefined`
JavaScript value: true exactly when the value is that string. -/
def isStrVal (v : Option Json) (s : String) : Bool :=
  match v with
  | some (.str t) => t == s
  | _ => false

/-! ### A model of `JSON.parse`

The handlers call the runtime's `JSON.parse` on the inbound body
(`handler2`, and `handler1` behind an inner `try`) and on the cleaned
upstream text.  The executable parser below models it, accepting
exactly the JSON grammar `JSON.parse` accepts: numbers follow
`-? ('0' | [1-9][0-9]*) ('.' [0-9]+)? ([eE][+-]?[0-9]+)?` (so leading
zeros are rejected and fraction/exponent notation is accepted), and
string literals reject raw control characters below U+0020 while
accepting the eight named escapes and `\uXXXX`.  Error messages are
the model's own, standing in for the engine's `SyntaxError` text, and
a `\u`-escaped surrogate is kept as a raw code unit rather than being
paired. -/

/-- JSON insignificant whitespace. -/
def isJsonWs (c : Char) : Bool :=
  c == ' ' || c == '\t' || c == '\n' || c == '\r'

/-- Skip insignificant whitespace. -/
def skipWs (l : List Char) : List Char := l.dropWhile isJsonWs

/-- Value of a hexadecimal digit, if any. -/
def hexVal (c : Char) : Option Nat :=
  if 48 ≤ c.toNat ∧ c.toNat ≤ 57 then some (c.toNat - 48)
  else if 97 ≤ c.toNat ∧ c.toNat ≤ 102 then some (c.toNat - 87)
  else if 65 ≤ c.toNat ∧ c.toNat ≤ 70 then some (c.toNat - 55)
  else none

/-- Parse the body of a JSON string literal (the opening quote already
consumed), returning the decoded string and the remaining input. -/
def parseStringBody : Nat → List Char → Except String (String × List Char)
  | 0, _ => .error "Unterminated string in JSON"
  | _ + 1, [] => .error "Unterminated string in JSON"
  | fuel + 1, c :: rest =>
    if c = '"' then .ok ("", rest)
    else if c = '\\' then
      match rest with
      | [] => .error "Bad escape in JSON string"
      | e :: rest2 =>
        if e = '"' then (parseStringBody fuel rest2).map (fun p => (⟨'"' :: p.1.data⟩, p.2))
        else if e = '\\' then (parseStringBody fuel rest2).map (fun p => (⟨'\\' :: p.1.data⟩, p.2))
        else if e = '/' then (parseStringBody fuel rest2).map (fun p => (⟨'/' :: p.1.data⟩, p.2))
        else if e = 'n' then (parseStringBody fuel rest2).map (fun p => (⟨'\n' :: p.1.data⟩, p.2))
        else if e = 't' then (parseStringBody fuel rest2).map (fun p => (⟨'\t' :: p.1.data⟩, p.2))
        else if e = 'r' then (parseStringBody fuel rest2).map (fun p => (⟨'\r' :: p.1.data⟩, p.2))
        else if e = 'b' then (parseStringBody fuel rest2).map (fun p => (⟨Char.ofNat 8 :: p.1.data⟩, p.2))
        else if e = 'f' then (parseStringBody fuel rest2).map (fun p => (⟨Char.ofNat 12 :: p.1.data⟩, p.2))
        else if e = 'u' then
          match rest2 with
          | h1 :: h2 :: h3 :: h4 :: rest3 =>
            match hexVal h1, hexVal h2, hexVal h3, hexVal h4 with
            | some a, some b, some c3, some d =>
              (parseStringBody fuel rest3).map
                (fun p => (⟨Char.ofNat (((a * 16 + b) * 16 + c3) * 16 + d) :: p.1.data⟩, p.2))
            | _, _, _, _ => .error "Bad Unicode escape in JSON string"
          | _ => .error "Bad Unicode escape in JSON string"
        else .error "Bad escape in JSON string"
    else if c.toNat < 32 then .error "Bad control character in JSON string"
    else (parseStringBody fuel rest).map (fun p => (⟨c :: p.1.data⟩, p.2))

/-- The value of a run of decimal digits. -/
def digitsToNat (ds : List Char) : Nat :=
  ds.foldl (fun a c => a * 10 + (c.toNat - 48)) 0

/-- Parse the integer part of a JSON number: `'0'` alone or a nonzero
digit followed by digits (leading zeros are a syntax error, as in
`JSON.parse`). -/
def parseIntDigits (l : List Char) : Except String (List Char × List Char) :=
  match l with
  | [] => .error "Unexpected end of JSON input"
  | c :: rest =>
    if c = '0' then .ok ([c], rest)
    else if c.isDigit then
      .ok (c :: rest.takeWhile (fun d => d.isDigit), rest.dropWhile (fun d => d.isDigit))
    else .error "Unexpected token in JSON"

/-- Parse an optional fraction part `'.' [0-9]+`, returning its digits
when present. -/
def parseFrac : List Char → Except String (Option (List Char) × List Char)
  | '.' :: rest =>
    let ds := rest.takeWhile (fun d => d.isDigit)
    if ds.isEmpty then .error "Unexpected token in JSON"
    else .ok (some ds, rest.dropWhile (fun d => d.isDigit))
  | l => .ok (none, l)

/-- Parse an optional exponent part `[eE] [+-]? [0-9]+`, returning its
exact lexeme when present. -/
def parseExp : List Char → Except String (Option (List Char) × List Char)
  | c :: rest =>
    if c = 'e' ∨ c = 'E' then
      let sgn : List Char := match rest with
        | '+' :: _ => ['+']
        | '-' :: _ => ['-']
        | _ => []
      let r1 : List Char := match rest with
        | '+' :: r => r
        | '-' :: r => r
        | r => r
      let ds := r1.takeWhile (fun d => d.isDigit)
      if ds.isEmpty then .error "Unexpected token in JSON"
      else .ok (some (c :: (sgn ++ ds)), r1.dropWhile (fun d => d.isDigit))
    else .ok (none, c :: rest)
  | [] => .ok (none, [])

/-- Parse one JSON number (the whole token, optional minus included):
grammar `-? int frac? exp?`.  With neither fraction nor exponent the
exact integer is kept (`Json.num`); otherwise the exact lexeme is kept
(`Json.numNonInt`). -/
def parseNumber (l : List Char) : Except String (Json × List Char) :=
  let neg : Bool := match l with
    | '-' :: _ => true
    | _ => false
  let l1 : List Char := match l with
    | '-' :: rest => rest
    | rest => rest
  match parseIntDigits l1 with
  | .error e => .error e
  | .ok (ids, r1) =>
    match parseFrac r1 with
    | .error e => .error e
    | .ok (fds?, r2) =>
      match parseExp r2 with
      | .error e => .error e
      | .ok (eds?, r3) =>
        match fds?, eds? with
        | none, none =>
          .ok (.num (if neg then -(digitsToNat ids : Int) else (digitsToNat ids : Int)), r3)
        | _, _ =>
          .ok (.numNonInt ⟨(if neg then ['-'] else []) ++ ids ++
                (match fds? with
                 | some f => '.' :: f
                 | none => []) ++
                (match eds? with
                 | some ex => ex
                 | none => [])⟩, r3)

mutual

/-- Parse one JSON value. -/
def parseValue : Nat → List Char → Except String (Json × List Char)
  | 0, _ => .error "JSON nesting too deep"
  | fuel + 1, l =>
    match skipWs l with
    | [] => .error "Unexpected end of JSON input"
    | c :: rest =>
      if c = '{' then
        match skipWs rest with
        | '}' :: rest2 => .ok (.obj [], rest2)
        | rest2 => parseMembers fuel rest2 []
      else if c = '[' then
        match skipWs rest with
        | ']' :: rest2 => .ok (.arr [], rest2)
        | rest2 => parseItems fuel rest2 []
      else if c = '"' then
        (parseStringBody (rest.length + 1) rest).map (fun p => (.str p.1, p.2))
      else if c = 't' then
        match rest with
        | 'r' :: 'u' :: 'e' :: rest2 => .ok (.bool true, rest2)
        | _ => .error "Unexpected token in JSON"
      else if c = 'f' then
        match rest with
        | 'a' :: 'l' :: 's' :: 'e' :: rest2 => .ok (.bool false, rest2)
        | _ => .error "Unexpected token in JSON"
      else if c = 'n' then
        match rest with
        | 'u' :: 'l' :: 'l' :: rest2 => .ok (.null, rest2)
        | _ => .error "Unexpected token in JSON"
      else if c = '-' ∨ c.isDigit then parseNumber (c :: rest)
      else .error "Unexpected token in JSON"

/-- Parse the items of a non-empty JSON array (after `[`). -/
def parseItems : Nat → List Char → List Json → Except String (Json × List Char)
  | 0, _, _ => .error "JSON nesting too deep"
  | fuel + 1, l, acc =>
    match parseValue fuel l with
    | .error e => .error e
    | .ok (v, rest) =>
      match skipWs rest with
      | ',' :: rest2 => parseItems fuel rest2 (acc ++ [v])
      | ']' :: rest2 => .ok (.arr (acc ++ [v]), rest2)
      | _ => .error "Expected comma or closing bracket in JSON array"

/-- Parse the members of a non-empty JSON object (after the brace). -/
def parseMembers : Nat → List Char → List (String × Json) → Except String (Json × List Char)
  | 0, _, _ => .error "JSON nesting too deep"
  | fuel + 1, l, acc =>
    match skipWs l with
    | '"' :: rest =>
      match parseStringBody (rest.length + 1) rest with
      | .error e => .error e
      | .ok (key, rest2) =>
        match skipWs rest2 with
        | ':' :: rest3 =>
          match parseValue fuel rest3 with
          | .error e => .error e
          | .ok (v, rest4) =>
            match skipWs rest4 with
            | ',' :: rest5 => parseMembers fuel rest5 (acc ++ [(key, v)])
            | '}' :: rest5 => .ok (.obj (acc ++ [(key, v)]), rest5)
            | _ => .error "Expected comma or closing brace in JSON object"
        | _ => .error "Expected colon in JSON object"
    | _ => .error "Expected string key in JSON object"

end

/-- The model of `JSON.parse`: parse one value and require only
whitespace after it. -/
def jsonParse (s : String) : Except String Json :=
  match parseValue (s.length + 1) s.data with
  | .error e => .error e
  | .ok (v, rest) =>
    if (skipWs rest).isEmpty then .ok v
    else .error "Unexpected non-whitespace character after JSON data"

/-! ### Normalization of the upstream text

`handler2` cleans the upstream text with
`resultText.replace(/```[a-z]*\n?/gi, '').replace(/```/g, '').trim()`;
`handler1` cleans it with `contentText.replace(/```json|```/g, '').trim()`
guarded by `contentText.includes('```json')`.  The global regex
replaces are modelled as left-to-right non-overlapping scans, exactly
as a global regex replace proceeds; the scans recurse on a fuel
initialized to the input length, which every run of the scan respects
(each step consumes at least one character). -/

/-- ASCII letter (the `[a-z]` class under the `i` flag). -/
def isAsciiLetter (c : Char) : Bool :=
  (decide (97 ≤ c.toNat) && decide (c.toNat ≤ 122)) ||
    (decide (65 ≤ c.toNat) && decide (c.toNat ≤ 90))

/-- Drop a maximal run of ASCII letters (the `[a-z]*` part). -/
def dropLetters : List Char → List Char
  | [] => []
  | c :: rest => if isAsciiLetter c then dropLetters rest else c :: rest

/-- Drop one optional newline (the `\n?` part). -/
def dropNl (l : List Char) : List Char :=
  match l with
  | c :: rest => if c = '\n' then rest else l
  | [] => l

/-- One global pass of `replace(/```[a-z]*\n?/gi, '')`. -/
def stripFenceLangAux : Nat → List Char → List Char
  | 0, l => l
  | _ + 1, [] => []
  | fuel + 1, c :: rest =>
    if c = '`' ∧ rest.take 2 = ['`', '`'] then
      stripFenceLangAux fuel (dropNl (dropLetters (rest.drop 2)))
    else c :: stripFenceLangAux fuel rest

/-- One global pass of `replace(/```/g, '')`. -/
def stripTicksAux : Nat → List Char → List Char
  | 0, l => l
  | _ + 1, [] => []
  | fuel + 1, c :: rest =>
    if c = '`' ∧ rest.take 2 = ['`', '`'] then
      stripTicksAux fuel (rest.drop 2)
    else c :: stripTicksAux fuel rest

/-- `resultText.replace(/```[a-z]*\n?/gi, '')`. -/
def stripFenceLang (s : String) : String := ⟨stripFenceLangAux s.data.length s.data⟩

/-- `….replace(/```/g, '')`. -/
def stripTicks (s : String) : String := ⟨stripTicksAux s.data.length s.data⟩

/-- The whitespace characters relevant to `String.prototype.trim` here
(space, tab, newline, carriage return; the full JS set also has exotic
Unicode spaces, which never occur in this development). -/
def isJsWsChar (c : Char) : Bool :=
  c == ' ' || c == '\t' || c == '\n' || c == '\r'

/-- `String.prototype.trim`: drop whitespace from both ends (right end
first; the order is immaterial to the result). -/
def trimList (l : List Char) : List Char :=
  ((l.reverse.dropWhile isJsWsChar).reverse).dropWhile isJsWsChar

/-- `s.trim()`. -/
def jsTrim (s : String) : String := ⟨trimList s.data⟩

/-- The full cleanup `handler2` applies to the upstream text. -/
def cleanText2 (s : String) : String := jsTrim (stripTicks (stripFenceLang s))

/-- `contentText.includes('```json')` in `handler1`. -/
def hasFenceJson (l : List Char) : Bool :=
  match l with
  | [] => false
  | _ :: rest =>
    if l.take 7 = "```json".data then true else hasFenceJson rest

/-- One global pass of `replace(/```json|```/g, '')` in `handler1`
(the alternation prefers the longer `` ```json `` at each position). -/
def stripJsonFenceAux : Nat → List Char → List Char
  | 0, l => l
  | _ + 1, [] => []
  | fuel + 1, c :: rest =>
    if (c :: rest).take 7 = "```json".data then
      stripJsonFenceAux fuel ((c :: rest).drop 7)
    else if c = '`' ∧ rest.take 2 = ['`', '`'] then
      stripJsonFenceAux fuel (rest.drop 2)
    else c :: stripJsonFenceAux fuel rest

/-- `handler1`'s conditional cleanup of a `market_data` upstream text. -/
def cleanText1 (s : String) : String :=
  if hasFenceJson s.data then jsTrim ⟨stripJsonFenceAux s.data.length s.data⟩ else s

/-! ### Data model of a handler invocation

One invocation observes: the HTTP method, the credential
(`process.env.GEMINI_API_KEY`, `none` when unset), the inbound body
(either a raw string to be `JSON.parse`d or an already-parsed value),
and the upstream endpoint.  The upstream is modelled as an oracle from
the attempt index to the observables the handler reads off a `fetch`
response: the HTTP status, the `error.message` field of the error body
if present (`errData.error?.message`), and the text payload at
`candidates[0].content.parts[0].text` if present. -/

/-- What the handler observes of one upstream `fetch` response. -/
structure UpstreamResult where
  status : Nat
  errMsg : Option String
  text : Option String

/-- `response.ok`: status in the inclusive range 200–299. -/
def respOk (status : Nat) : Bool := decide (200 ≤ status) && decide (status ≤ 299)

/-- The request-dependent parts of one upstream call (the user
message, the system instruction — a raw JavaScript value, since
`systemPrompt` is used unchecked — and the declared response MIME
type). -/
structure CallCore where
  userMessage : String
  systemInstruction : Json
  mime : String

/-- One upstream call as actually issued, credential included (the
`fetch` URL carries `?key=${apiKey}`). -/
structure SentReq where
  key : String
  userMessage : String
  systemInstruction : Json
  mime : String

/-- The JSON body of the handler's HTTP response: `{error: msg}`,
`{text: …}` (`none` models `{text: undefined}`, which serializes with
the field omitted), or a parsed object returned directly. -/
inductive RespBody where
  | errB (msg : String)
  | textB (text : Option String)
  | jsonB (v : Json)

/-- A handler outcome before the credential is attached to the
outgoing calls: response status and body, plus the trace of upstream
calls issued and of back-off delays slept (in ms, in order). -/
structure CoreOut where
  status : Nat
  body : RespBody
  sent : List CallCore
  sleeps : List Nat

/-- A handler outcome: response status and body, plus the trace of
upstream calls issued and of back-off delays slept. -/
structure HResult where
  status : Nat
  body : RespBody
  sent : List SentReq
  sleeps : List Nat

/-- Attach the credential to the outgoing calls of an outcome. -/
def attachKey (k : String) (c : CoreOut) : HResult :=
  ⟨c.status, c.body, c.sent.map (fun cc => ⟨k, cc.userMessage, cc.systemInstruction, cc.mime⟩), c.sleeps⟩

/-- The inbound request body as delivered by the runtime: either a raw
string (`typeof req.body === 'string'`) or an already-parsed value. -/
inductive ReqBody where
  | strB (s : String)
  | objB (j : Json)

/-- `responseMimeType`: `application/json` in JSON mode, else plain text. -/
def mimeFor (isJson : Bool) : String :=
  if isJson then "application/json" else "text/plain"

/-! ### The retry-enabled handler (`handler2`, second half of
`src/api/analyze.js`) -/

/-- The `market_data` system instruction of `handler2` (exact template
literal text; `\x7b`/`\x7d` denote the braces). -/
def marketInstr2 : String :=
  "\n                今日現在の最新市場データを調査し、以下のJSON形式でのみ回答してください。\n                \x7b\n                    \"fgValue\": 0-100の数値,\n                    \"fgLabel\": \"Extreme Fear\" | \"Fear\" | \"Neutral\" | \"Greed\" | \"Extreme Greed\",\n                    \"usdjpy\": \"現在のレート\",\n                    \"usdjpyChange\": \"前日比\",\n                    \"sp500\": \"現在の数値\",\n                    \"nikkei\": \"現在の数値\"\n                \x7d\n            "

/-- The `dividend_ranking` system instruction of `handler2` (the
shape-constrained HTML-table instruction: ten items, per-item fields
順位 / 銘柄名・コード / 1株配当(予想) / 配当利回り, Tailwind styling). -/
def dividendInstr2 : String :=
  "\n                現在、日本株で配当利回りが高い銘柄の上位10社を調査してください。\n                結果は必ず、見やすいHTMLテーブル形式で出力してください。\n                各行には「順位」「銘柄名・コード」「1株配当(予想)」「配当利回り」を含めてください。\n                スタイルはTailwind CSSを使用して装飾してください。\n            "

/-- The `yutai_list` system instruction of `handler2`. -/
def yutaiInstr2 : String :=
  "\n                今月が権利確定月となっている、日本株の人気株主優待銘柄を調査してください。\n                銘柄名、優待内容、権利確定日がわかるようにHTMLで出力してください。\n            "

/-- The generic freeform fallback instruction of `handler2`
(`systemPrompt || …`). -/
def freeformInstr2 : String := "プロの投資アナリストとして日本語で回答してください。"

/-- The triple a handler's classification step produces: system
instruction (a raw JavaScript value, since a caller-supplied `prompt`
is used unchecked), user message, and whether JSON output was
requested. -/
structure PromptSpec where
  systemInstruction : Json
  userMessage : String
  isJsonResponse : Bool

/-- Classification of `handler2` (`type` dispatch): the system
instruction, user message, and `isJsonResponse` flag chosen from the
destructured `type` / `query` / `prompt` fields. -/
def classify2 (type? query? prompt? : Option Json) : PromptSpec :=
  if isStrVal type? "market_data" then
    ⟨.str marketInstr2, "今日の市場の主要指標を教えてください。", true⟩
  else if isStrVal type? "dividend_ranking" then
    ⟨.str dividendInstr2, "最新の日本株高配当ランキングTOP10を作成してください。", false⟩
  else if isStrVal type? "yutai_list" then
    ⟨.str yutaiInstr2, "今月の株主優待銘柄一覧を教えてください。", false⟩
  else
    ⟨(if jsTruthy prompt? then prompt?.getD .null else .str freeformInstr2),
     (if jsTruthy query? then "分析対象: " ++ jsToStringOpt query?
      else "現在の市場トレンドについて教えてください。"),
     false⟩

/-- `maxRetries` of `handler2`. -/
def maxRetries : Nat := 5

/-- `retryDelays` of `handler2` (ms). -/
def retryDelays : List Nat := [1000, 2000, 4000, 8000, 16000]

/-- How `handler2`'s retry loop ended: `break` on an ok response, a
`return` from inside the loop with an error status and message, or the
loop condition `i <= maxRetries` failing. -/
inductive LoopExit where
  | ok (r : UpstreamResult)
  | errRet (status : Nat) (msg : String)
  | fellThrough

/-- The retry loop `for (let i = 0; i <= maxRetries; i++)` of
`handler2`.  The fuel counts the remaining permitted iterations
(`maxRetries + 1 - i`); each iteration fetches attempt `i`, breaks on
an ok response, sleeps `retryDelays[i]` and continues on a 429 with
budget left, and otherwise returns the upstream status together with
`errData.error?.message || 'API通信エラー'`.  Returns the number of
calls made, the delays slept, and how the loop ended. -/
def loopGo (u : Nat → UpstreamResult) : Nat → Nat → Nat → List Nat → Nat × List Nat × LoopExit
  | 0, _, calls, sleeps => (calls, sleeps, .fellThrough)
  | fuel + 1, i, calls, sleeps =>
    let r := u i
    if respOk r.status then (calls + 1, sleeps, .ok r)
    else if r.status == 429 && decide (i < maxRetries) then
      loopGo u fuel (i + 1) (calls + 1) (sleeps ++ [retryDelays.getD i 0])
    else (calls + 1, sleeps, .errRet r.status (jsOrElse r.errMsg "API通信エラー"))

/-- The fixed cool-down message of `handler2` (the post-loop
`if (!response.ok)` branch). -/
def rateLimitMsg : String := "AIの利用制限に達しました。1分ほど待ってから再度お試しください。"

/-- The shape-error message of `handler2`. -/
def shapeErrMsg2 : String := "データの解析に失敗しました。"

/-- The success path of `handler2`: read the text payload (`|| ""`),
clean it, and either parse it (JSON mode) or return it as `{text: …}`. -/
def finalize2 (isJson : Bool) (r : UpstreamResult) : Nat × RespBody :=
  let cleaned := cleanText2 (r.text.getD "")
  if isJson then
    match jsonParse cleaned with
    | .ok v => (200, .jsonB v)
    | .error _ => (500, .errB shapeErrMsg2)
  else (200, .textB (some cleaned))

/-- `handler2` after the body has been destructured: classify, run the
retry loop, and translate its exit. -/
def handler2Body (j : Json) (u : Nat → UpstreamResult) : CoreOut :=
  let ps := classify2 (getField j "type") (getField j "query") (getField j "prompt")
  let call : CallCore := ⟨ps.userMessage, ps.systemInstruction, mimeFor ps.isJsonResponse⟩
  match loopGo u (maxRetries + 1) 0 0 [] with
  | (calls, sleeps, .errRet s m) => ⟨s, .errB m, List.replicate calls call, sleeps⟩
  | (calls, sleeps, .fellThrough) => ⟨429, .errB rateLimitMsg, List.replicate calls call, sleeps⟩
  | (calls, sleeps, .ok r) =>
    let p := finalize2 ps.isJsonResponse r
    ⟨p.1, p.2, List.replicate calls call, sleeps⟩

/-- Models the engine's `TypeError` message thrown by
`const { type, query, prompt } = bodyData` when `bodyData` is `null`
(its exact text is a runtime detail; nothing below depends on it). -/
def nullBodyMsg : String := "Cannot destructure property 'type' of 'bodyData' as it is null."

/-- `handler2` on a parsed body value: destructuring `null` throws and
is caught by the outer `catch` (500, `` `サーバーエラー: ${error.message}` ``). -/
def handler2Parsed (j : Json) (u : Nat → UpstreamResult) : CoreOut :=
  match j with
  | .null => ⟨500, .errB ("サーバーエラー: " ++ nullBodyMsg), [], []⟩
  | j => handler2Body j u

/-- `handler2` body acquisition
(`typeof req.body === 'string' ? JSON.parse(req.body) : req.body`):
a parse failure propagates to the outer `catch`. -/
def handler2Core (rb : ReqBody) (u : Nat → UpstreamResult) : CoreOut :=
  match rb with
  | .strB s =>
    match jsonParse s with
    | .error m => ⟨500, .errB ("サーバーエラー: " ++ m), [], []⟩
    | .ok j => handler2Parsed j u
  | .objB j => handler2Parsed j u

/-- The missing-credential message of `handler2`. -/
def keyMissingMsg2 : String :=
  "APIキーが設定されていません。Vercelの環境変数 GEMINI_API_KEY を確認してください。"

/-- The retry-enabled handler: method check, credential check
(`!apiKey || apiKey.trim() === ""`), then the body/classify/retry
pipeline, with the credential attached to every outgoing call. -/
def handler2 (method : String) (apiKey : Option String) (rb : ReqBody)
    (u : Nat → UpstreamResult) : HResult :=
  if method != "POST" then ⟨405, .errB "Method not allowed", [], []⟩
  else
    match apiKey with
    | none => ⟨500, .errB keyMissingMsg2, [], []⟩
    | some k =>
      if jsTrim k == "" then ⟨500, .errB keyMissingMsg2, [], []⟩
      else attachKey k (handler2Core rb u)

/-! ### The basic handler (`handler1`, first half of `src/api/analyze.js`) -/

/-- The `market_data` system instruction of `handler1` (exact template
literal text; `\x7b`/`\x7d` denote the braces). -/
def marketInstr1 : String :=
  "\n                現在（2026年時点）の最新の市場データを調査し、以下のJSON形式でのみ回答してください。\n                解説などは一切不要です。純粋なJSONのみを返してください。\n                \x7b\n                    \"fgValue\": 0から100の数値,\n                    \"fgLabel\": \"Extreme Fear\" | \"Fear\" | \"Neutral\" | \"Greed\" | \"Extreme Greed\",\n                    \"usdjpy\": \"現在のドル円レート(例: 149.20)\",\n                    \"usdjpyChange\": \"前日比(例: +0.45%)\",\n                    \"sp500\": \"現在のS&P500値\",\n                    \"nikkei\": \"現在の日経平均値\"\n                \x7d\n            "

/-- The generic fallback instruction of `handler1` (`systemPrompt || …`). -/
def freeformInstr1 : String := "あなたは優秀な投資アナリストです。日本語で回答してください。"

/-- Classification of `handler1`: only `market_data` is recognized;
everything else takes the free-form branch with
`` userMessage = `対象: ${query}` `` (no truthiness guard on `query`). -/
def classify1 (type? query? prompt? : Option Json) : PromptSpec :=
  if isStrVal type? "market_data" then
    ⟨.str marketInstr1, "最新のFear & Greed Index、ドル円為替、S&P500、日経平均の現在値を教えて。", true⟩
  else
    ⟨(if jsTruthy prompt? then prompt?.getD .null else .str freeformInstr1),
     "対象: " ++ jsToStringOpt query?, false⟩

/-- The internal-error message of `handler1`'s outer `catch`. -/
def internalErrMsg1 : String := "サーバー内部でエラーが発生しました。"

/-- `handler1` after the body has been destructured: classify, make
the single upstream call, normalize.  A non-ok response returns the
upstream status with a fixed message; on success the text payload is
read without a fallback, so a missing payload in `market_data` mode
throws at `contentText.includes(…)` and lands in the outer `catch`. -/
def handler1Body (j : Json) (u : Nat → UpstreamResult) : CoreOut :=
  let ps := classify1 (getField j "type") (getField j "query") (getField j "prompt")
  let call : CallCore := ⟨ps.userMessage, ps.systemInstruction, mimeFor ps.isJsonResponse⟩
  let r := u 0
  if respOk r.status then
    match r.text with
    | none =>
      if ps.isJsonResponse then ⟨500, .errB internalErrMsg1, [call], []⟩
      else ⟨200, .textB none, [call], []⟩
    | some t =>
      if ps.isJsonResponse then
        match jsonParse (cleanText1 t) with
        | .ok v => ⟨200, .jsonB v, [call], []⟩
        | .error _ => ⟨500, .errB "AIからのデータ形式が不正です。", [call], []⟩
      else ⟨200, .textB (some t), [call], []⟩
  else ⟨r.status, .errB "Gemini APIへの通信に失敗しました。", [call], []⟩

/-- `handler1` on a parsed body value (destructuring `null` throws,
caught by the outer `catch` with a fixed message). -/
def handler1Parsed (j : Json) (u : Nat → UpstreamResult) : CoreOut :=
  match j with
  | .null => ⟨500, .errB internalErrMsg1, [], []⟩
  | j => handler1Body j u

/-- `handler1` body acquisition: a string body is parsed inside its
own `try`, answering 400 on failure. -/
def handler1Core (rb : ReqBody) (u : Nat → UpstreamResult) : CoreOut :=
  match rb with
  | .strB s =>
    match jsonParse s with
    | .error _ => ⟨400, .errB "Invalid JSON format in request body", [], []⟩
    | .ok j => handler1Parsed j u
  | .objB j => handler1Parsed j u

/-- The missing-credential message of `handler1`. -/
def keyMissingMsg1 : String :=
  "APIキーが設定されていません。Vercelの環境変数を確認してください。"

/-- The basic handler: method check, credential check (`!apiKey` —
no trim, so a whitespace-only credential passes), then the single-call
pipeline. -/
def handler1 (method : String) (apiKey : Option String) (rb : ReqBody)
    (u : Nat → UpstreamResult) : HResult :=
  if method != "POST" then ⟨405, .errB "Method not allowed", [], []⟩
  else
    match apiKey with
    | none => ⟨500, .errB keyMissingMsg1, [], []⟩
    | some k =>
      if k == "" then ⟨500, .errB keyMissingMsg1, [], []⟩
      else attachKey k (handler1Core rb u)

/-! ### Lemmas about the retry loop -/

/-- Unrolling `loopGo`: a 429 with budget left sleeps the scheduled
delay and re-enters the loop. -/
theorem loopGo_retry (u : Nat → UpstreamResult) (fuel i calls : Nat) (sleeps : List Nat)
    (h : (u i).status = 429) (hi : i < maxRetries) :
    loopGo u (fuel + 1) i calls sleeps =
      loopGo u fuel (i + 1) (calls + 1) (sleeps ++ [retryDelays.getD i 0]) := by
  simp [loopGo, h, hi, respOk]

/-- Unrolling `loopGo`: an ok response breaks out of the loop. -/
theorem loopGo_break_ok (u : Nat → UpstreamResult) (fuel i calls : Nat) (sleeps : List Nat)
    (h : respOk (u i).status = true) :
    loopGo u (fuel + 1) i calls sleeps = (calls + 1, sleeps, .ok (u i)) := by
  simp [loopGo, h]

/-- Unrolling `loopGo`: a non-ok response that is not a retryable 429
returns the upstream status and reported message at once. -/
theorem loopGo_early_return (u : Nat → UpstreamResult) (fuel i calls : Nat) (sleeps : List Nat)
    (h : respOk (u i).status = false)
    (h2 : ((u i).status == 429 && decide (i < maxRetries)) = false) :
    loopGo u (fuel + 1) i calls sleeps =
      (calls + 1, sleeps, .errRet (u i).status (jsOrElse (u i).errMsg "API通信エラー")) := by
  simp [loopGo, h, h2]

/-- The loop on the upstream sequence 429, 429, ok: three calls, two
scheduled sleeps, ends with the third response. -/
theorem loop_429_429_ok (u : Nat → UpstreamResult)
    (h0 : (u 0).status = 429) (h1 : (u 1).status = 429) (h2 : respOk (u 2).status = true) :
    loopGo u (maxRetries + 1) 0 0 [] = (3, [1000, 2000], .ok (u 2)) := by
  rw [loopGo_retry u maxRetries 0 0 [] h0 (by decide)]
  rw [show maxRetries = 4 + 1 from rfl]
  rw [loopGo_retry u 4 1 _ _ h1 (by decide)]
  rw [show (4 : Nat) = 3 + 1 from rfl]
  rw [loopGo_break_ok u 3 2 _ _ h2]
  rfl

/-- A first-attempt failure that is not a 429 leaves the loop at once
with the upstream's status and reported message. -/
theorem loop_first_error (u : Nat → UpstreamResult)
    (h : respOk (u 0).status = false) (h429 : (u 0).status ≠ 429) :
    loopGo u (maxRetries + 1) 0 0 [] =
      (1, [], .errRet (u 0).status (jsOrElse (u 0).errMsg "API通信エラー")) := by
  rw [loopGo_early_return u maxRetries 0 0 [] h (by simp [h429])]

/-- Reducing `handler2` past its method and credential guards. -/
theorem handler2_guards (k : String) (rb : ReqBody) (u : Nat → UpstreamResult)
    (hk : jsTrim k ≠ "") :
    handler2 "POST" (some k) rb u = attachKey k (handler2Core rb u) := by
  have hk' : (jsTrim k == "") = false := by simp [hk]
  simp [handler2, hk']

/-- A non-`null` parsed body proceeds to the main pipeline of `handler2`. -/
theorem handler2Parsed_ne_null (j : Json) (u : Nat → UpstreamResult) (h : j ≠ .null) :
    handler2Parsed j u = handler2Body j u := by
  cases j
  · exact absurd rfl h
  all_goals rfl

/-! ### Claims -/

/-- C2: Given an upstream response sequence [429, 429, 200], the retry
loop of the retry-enabled handler makes exactly 3 upstream calls,
sleeps exactly the first two entries of `retryDelays` between them,
and the response is computed from the third (ok) upstream response;
nothing past attempt 2 is consulted, so no fourth call is made. -/
theorem c2_retry_sequence_429_429_200 (u : Nat → UpstreamResult) (k : String) (j : Json)
    (hk : jsTrim k ≠ "") (hj : j ≠ .null)
    (h0 : (u 0).status = 429) (h1 : (u 1).status = 429) (h2 : respOk (u 2).status = true) :
    handler2 "POST" (some k) (.objB j) u =
      (let ps := classify2 (getField j "type") (getField j "query") (getField j "prompt")
       let fin := finalize2 ps.isJsonResponse (u 2)
       { status := fin.1
         body := fin.2
         sent := List.replicate 3 ⟨k, ps.userMessage, ps.systemInstruction, mimeFor ps.isJsonResponse⟩
         sleeps := retryDelays.take 2 }) := by
  rw [handler2_guards k _ u hk]
  show attachKey k (handler2Parsed j u) = _
  rw [handler2Parsed_ne_null j u hj]
  show attachKey k (handler2Body j u) = _
  simp only [handler2Body]
  rw [loop_429_429_ok u h0 h1 h2]
  rfl

/-- C2 witness: the theorem applied to a concrete request and a
concrete 429, 429, 200 upstream script. -/
theorem c2_retry_sequence_429_429_200_witness :
    handler2 "POST" (some "key") (.objB (.obj []))
      (fun i => if i = 0 then ⟨429, some "r1", none⟩
                else if i = 1 then ⟨429, some "r2", none⟩
                else ⟨200, none, some "OK!"⟩) =
      { status := 200
        body := .textB (some "OK!")
        sent := List.replicate 3
          ⟨"key", "現在の市場トレンドについて教えてください。", .str freeformInstr2, "text/plain"⟩
        sleeps := [1000, 2000] } :=
  c2_retry_sequence_429_429_200 _ "key" (.obj []) (by decide)
    (by intro h; cases h) rfl rfl rfl

/-- C3: a first-attempt upstream failure whose status is not 429 makes
exactly one upstream call — no retry, no sleep — and the retry-enabled
handler echoes that status together with the upstream's reported error
message.  "Reported" means `errData.error?.message` is present and
truthy (nonempty): an absent or empty message falls back to the
generic `'API通信エラー'` via `||`, which `jsOrElse` embeds. -/
theorem c3_non_429_failure_no_retry (u : Nat → UpstreamResult) (k : String) (j : Json)
    (m : String) (hk : jsTrim k ≠ "") (hj : j ≠ .null)
    (hfail : respOk (u 0).status = false) (h429 : (u 0).status ≠ 429)
    (hm : (u 0).errMsg = some m) (hm0 : m ≠ "") :
    handler2 "POST" (some k) (.objB j) u =
      (let ps := classify2 (getField j "type") (getField j "query") (getField j "prompt")
       { status := (u 0).status
         body := .errB m
         sent := [⟨k, ps.userMessage, ps.systemInstruction, mimeFor ps.isJsonResponse⟩]
         sleeps := [] }) := by
  rw [handler2_guards k _ u hk]
  show attachKey k (handler2Parsed j u) = _
  rw [handler2Parsed_ne_null j u hj]
  show attachKey k (handler2Body j u) = _
  simp only [handler2Body]
  rw [loop_first_error u hfail h429, hm]
  have hm' : (m == "") = false := by simp [hm0]
  simp only [jsOrElse, hm', Bool.false_eq_true, if_false]
  rfl

/-- C3 witness: the theorem applied to a concrete request and a
concrete 500-on-first-attempt upstream script. -/
theorem c3_non_429_failure_no_retry_witness :
    handler2 "POST" (some "key") (.objB (.obj []))
      (fun _ => ⟨500, some "Internal error encountered.", none⟩) =
      { status := 500
        body := .errB "Internal error encountered."
        sent := [⟨"key", "現在の市場トレンドについて教えてください。", .str freeformInstr2, "text/plain"⟩]
        sleeps := [] } :=
  c3_non_429_failure_no_retry _ "key" (.obj []) _ (by decide)
    (by intro h; cases h) rfl (by decide) rfl (by decide)

/-- C1 (the code as it stands, at the claimed scenario): when every
attempt answers 429 with a reported upstream message, the retry-enabled
handler makes all 6 calls, sleeps the whole schedule, responds with
status 429 — but with the raw upstream error text, not the fixed
cool-down message `rateLimitMsg`: the final iteration fails
`i < maxRetries` and returns `lastError` from inside the loop, so the
post-loop cool-down branch is unreachable. -/
theorem c1_exhausted_429_returns_raw_upstream_message :
    handler2 "POST" (some "key") (.objB (.obj []))
      (fun _ => ⟨429, some "Quota exceeded, please retry later.", none⟩) =
      { status := 429
        body := .errB "Quota exceeded, please retry later."
        sent := List.replicate 6
          ⟨"key", "現在の市場トレンドについて教えてください。", .str freeformInstr2, "text/plain"⟩
        sleeps := retryDelays }
    ∧ "Quota exceeded, please retry later." ≠ rateLimitMsg :=
  ⟨rfl, by decide⟩

/-- Reducing `handler1` past its method and credential guards. -/
theorem handler1_guards (k : String) (rb : ReqBody) (u : Nat → UpstreamResult)
    (hk : k ≠ "") :
    handler1 "POST" (some k) rb u = attachKey k (handler1Core rb u) := by
  have hk' : (k == "") = false := by simp [hk]
  simp [handler1, hk']

/-- C4 counterexample: on a string body that is not parseable as JSON,
the retry-enabled handler responds 500 (its outer `catch`), not 400 —
though it does make no upstream call. -/
theorem c4_counterexample_handler2_responds_500 :
    (handler2 "POST" (some "key") (.strB "\x7boops")
        (fun _ => ⟨200, none, some "x"⟩)).status = 500 ∧
    (handler2 "POST" (some "key") (.strB "\x7boops")
        (fun _ => ⟨200, none, some "x"⟩)).status ≠ 400 ∧
    (handler2 "POST" (some "key") (.strB "\x7boops")
        (fun _ => ⟨200, none, some "x"⟩)).sent = [] :=
  ⟨rfl, by decide, rfl⟩

/-- C4 amended: on a POST whose body is a string that is not parseable
as JSON, neither handler calls the upstream; the basic handler
responds 400 with its bad-format message, while the retry-enabled
handler lets the parse exception reach its outer `catch` and responds
500. -/
theorem c4_amended_unparseable_body (s e k : String) (u1 u2 : Nat → UpstreamResult)
    (hs : jsonParse s = .error e) (hk1 : k ≠ "") (hk2 : jsTrim k ≠ "") :
    handler1 "POST" (some k) (.strB s) u1 =
      ⟨400, .errB "Invalid JSON format in request body", [], []⟩ ∧
    handler2 "POST" (some k) (.strB s) u2 =
      ⟨500, .errB ("サーバーエラー: " ++ e), [], []⟩ := by
  constructor
  · rw [handler1_guards k _ u1 hk1]
    show attachKey k (handler1Core (.strB s) u1) = _
    simp only [handler1Core]
    rw [hs]
    rfl
  · rw [handler2_guards k _ u2 hk2]
    show attachKey k (handler2Core (.strB s) u2) = _
    simp only [handler2Core]
    rw [hs]
    rfl

/-- C4 witness: the amended theorem at a concrete unparseable body. -/
theorem c4_amended_unparseable_body_witness :
    handler1 "POST" (some "key") (.strB "\x7boops") (fun _ => ⟨200, none, some "x"⟩) =
      ⟨400, .errB "Invalid JSON format in request body", [], []⟩ ∧
    handler2 "POST" (some "key") (.strB "\x7boops") (fun _ => ⟨200, none, some "x"⟩) =
      ⟨500, .errB ("サーバーエラー: " ++ "Expected string key in JSON object"), [], []⟩ :=
  c4_amended_unparseable_body "\x7boops" _ "key" _ _ rfl (by decide) (by decide)

/-- C5 counterexample: a whitespace-only (blank but non-empty)
credential passes the basic handler's `!apiKey` check, so an upstream
call is made and the request does not short-circuit with 500. -/
theorem c5_counterexample_handler1_blank_key_calls_upstream :
    (handler1 "POST" (some " ") (.objB (.obj []))
        (fun _ => ⟨200, none, some "hi"⟩)).sent.length = 1 ∧
    (handler1 "POST" (some " ") (.objB (.obj []))
        (fun _ => ⟨200, none, some "hi"⟩)).status = 200 :=
  ⟨rfl, rfl⟩

/-- C5 amended: for every request of every category (any body, any
method-passing request), the retry-enabled handler short-circuits with
500 and zero upstream calls whenever the credential is absent or blank
(empty or whitespace-only); the basic handler short-circuits only when
the credential is absent or exactly empty — a whitespace-only
credential passes its check (see the counterexample). -/
theorem c5_amended_credential_short_circuit (k : String) (rb : ReqBody)
    (u1 u2 : Nat → UpstreamResult) (hk : jsTrim k = "") :
    handler2 "POST" (some k) rb u2 = ⟨500, .errB keyMissingMsg2, [], []⟩ ∧
    handler2 "POST" none rb u2 = ⟨500, .errB keyMissingMsg2, [], []⟩ ∧
    handler1 "POST" none rb u1 = ⟨500, .errB keyMissingMsg1, [], []⟩ ∧
    handler1 "POST" (some "") rb u1 = ⟨500, .errB keyMissingMsg1, [], []⟩ := by
  refine ⟨?_, rfl, rfl, rfl⟩
  simp [handler2, hk]

/-- C5 witness: the amended theorem at a whitespace-only credential
and a concrete request. -/
theorem c5_amended_credential_short_circuit_witness :
    handler2 "POST" (some " ") (.objB (.obj [("type", .str "market_data")]))
        (fun _ => ⟨200, none, some "hi"⟩) = ⟨500, .errB keyMissingMsg2, [], []⟩ ∧
    handler2 "POST" none (.objB (.obj [("type", .str "market_data")]))
        (fun _ => ⟨200, none, some "hi"⟩) = ⟨500, .errB keyMissingMsg2, [], []⟩ ∧
    handler1 "POST" none (.objB (.obj [("type", .str "market_data")]))
        (fun _ => ⟨200, none, some "hi"⟩) = ⟨500, .errB keyMissingMsg1, [], []⟩ ∧
    handler1 "POST" (some "") (.objB (.obj [("type", .str "market_data")]))
        (fun _ => ⟨200, none, some "hi"⟩) = ⟨500, .errB keyMissingMsg1, [], []⟩ :=
  c5_amended_credential_short_circuit " " _ _ _ (by decide)

/-- C6 counterexample: for `type="ranking"` the retry-enabled
classifier has no branch, so it produces the generic freeform fallback
instruction — not the ranking-specific shape-constrained instruction
(which only `dividend_ranking` gets). -/
theorem c6_counterexample_ranking_gets_freeform :
    (classify2 (some (.str "ranking")) none none).systemInstruction = .str freeformInstr2 ∧
    (classify2 (some (.str "ranking")) none none).userMessage =
      "現在の市場トレンドについて教えてください。" ∧
    freeformInstr2 ≠ dividendInstr2 :=
  ⟨rfl, rfl, by decide⟩

/-- C6 amended: only `type="dividend_ranking"` receives the
shape-constrained HTML-ranking instruction (a freeText spec); a
`type="ranking"` request is not a recognized category and falls
through to the generic freeform fallback instruction (when no custom
prompt is supplied). -/
theorem c6_amended_only_dividend_ranking_shaped (q p : Option Json) :
    classify2 (some (.str "dividend_ranking")) q p =
      ⟨.str dividendInstr2, "最新の日本株高配当ランキングTOP10を作成してください。", false⟩ ∧
    (classify2 (some (.str "ranking")) q none).systemInstruction = .str freeformInstr2 :=
  ⟨rfl, rfl⟩

/-- The `isJsonResponse` flag of the retry-enabled classifier is set
exactly for `type === 'market_data'`. -/
theorem classify2_isJson (t q p : Option Json) :
    (classify2 t q p).isJsonResponse = isStrVal t "market_data" := by
  by_cases h1 : isStrVal t "market_data" = true
  · simp [classify2, h1]
  · simp only [Bool.not_eq_true] at h1
    simp only [classify2, h1, Bool.false_eq_true, if_false]
    split
    · rfl
    · split
      · rfl
      · rfl

/-- C7: `market_data` and only `market_data` requests are classified
as structured JSON, and every upstream call the retry-enabled handler
issues declares `application/json` exactly for `market_data` and
`text/plain` for every other category. -/
theorem c7_market_data_shape_and_mime :
    (∀ t q p : Option Json,
      (classify2 t q p).isJsonResponse = isStrVal t "market_data") ∧
    (∀ t q p : Option Json,
      mimeFor (classify2 t q p).isJsonResponse =
        if isStrVal t "market_data" then "application/json" else "text/plain") ∧
    (∀ (j : Json) (u : Nat → UpstreamResult) (c : CallCore), c ∈ (handler2Body j u).sent →
      c.mime =
        if isStrVal (getField j "type") "market_data" then "application/json"
        else "text/plain") := by
  refine ⟨classify2_isJson, ?_, ?_⟩
  · intro t q p
    rw [mimeFor, classify2_isJson]
  · intro j u c hc
    simp only [handler2Body] at hc
    rcases hloop : loopGo u (maxRetries + 1) 0 0 [] with ⟨calls, sleeps, ex⟩
    rw [hloop] at hc
    have hcall :
        c = (⟨(classify2 (getField j "type") (getField j "query") (getField j "prompt")).userMessage,
              (classify2 (getField j "type") (getField j "query") (getField j "prompt")).systemInstruction,
              mimeFor (classify2 (getField j "type") (getField j "query") (getField j "prompt")).isJsonResponse⟩ : CallCore) := by
      cases ex <;> exact List.eq_of_mem_replicate hc
    rw [hcall]
    show mimeFor (classify2 (getField j "type") (getField j "query") (getField j "prompt")).isJsonResponse = _
    rw [mimeFor, classify2_isJson]

/-- C7 witness: the sent-calls clause of the theorem at a concrete
`market_data` request, and the classifier clauses at concrete
categories. -/
theorem c7_market_data_shape_and_mime_witness :
    (⟨"今日の市場の主要指標を教えてください。", .str marketInstr2, "application/json"⟩ : CallCore).mime =
      "application/json" ∧
    (classify2 (some (.str "market_data")) none none).isJsonResponse = true ∧
    (classify2 (some (.str "yutai_list")) none none).isJsonResponse = false := by
  refine ⟨?_, ?_, ?_⟩
  case refine_2 => rw [c7_market_data_shape_and_mime.1]; rfl
  case refine_3 => rw [c7_market_data_shape_and_mime.1]; rfl
  have h := c7_market_data_shape_and_mime.2.2 (.obj [("type", .str "market_data")])
    (fun _ => ⟨200, none, some "x"⟩) _ (List.mem_singleton_self _)
  exact h

/-- The fence scan copies a backtick-free prefix unchanged. -/
theorem stripFenceLangAux_append_free (l t : List Char) (m : Nat)
    (hl : ∀ c ∈ l, c ≠ '`') :
    stripFenceLangAux (l.length + m) (l ++ t) = l ++ stripFenceLangAux m t := by
  induction l with
  | nil => simp
  | cons c l ih =>
    have hc : c ≠ '`' := hl c (List.mem_cons_self c l)
    have hl' : ∀ x ∈ l, x ≠ '`' := fun x hx => hl x (List.mem_cons_of_mem c hx)
    show stripFenceLangAux (l.length + 1 + m) (c :: (l ++ t)) = _
    rw [Nat.add_right_comm]
    simp only [stripFenceLangAux, hc, false_and, if_false]
    rw [ih hl']
    rfl

/-- The fence scan on a backtick-free payload wrapped in
`` ```json\n…\n``` `` removes the opening fence with its language tag
and newline and the closing fence. -/
theorem stripFenceLangAux_fenced (sd : List Char) (hs : ∀ c ∈ sd, c ≠ '`') :
    stripFenceLangAux (sd.length + 12)
      ('`' :: '`' :: '`' :: 'j' :: 's' :: 'o' :: 'n' :: '\n' :: (sd ++ ['\n', '`', '`', '`'])) =
      sd ++ ['\n'] := by
  rw [show sd.length + 12 = (sd.length + 11) + 1 from rfl]
  rw [show stripFenceLangAux ((sd.length + 11) + 1)
        ('`' :: '`' :: '`' :: 'j' :: 's' :: 'o' :: 'n' :: '\n' :: (sd ++ ['\n', '`', '`', '`'])) =
      stripFenceLangAux (sd.length + 11) (sd ++ ['\n', '`', '`', '`']) from rfl]
  rw [stripFenceLangAux_append_free sd ['\n', '`', '`', '`'] 11 hs]
  rfl

/-- String-level version: `replace(/```[a-z]*\n?/gi, '')` on a fenced
backtick-free payload leaves the payload plus the newline that
preceded the closing fence. -/
theorem stripFenceLang_fenced (s : String) (hs : ∀ c ∈ s.data, c ≠ '`') :
    stripFenceLang ("```json\n" ++ s ++ "\n```") = s ++ "\n" := by
  simp only [stripFenceLang]
  rw [show ("```json\n" ++ s ++ "\n```").data =
      '`' :: '`' :: '`' :: 'j' :: 's' :: 'o' :: 'n' :: '\n' :: (s.data ++ ['\n', '`', '`', '`']) from rfl]
  rw [show ('`' :: '`' :: '`' :: 'j' :: 's' :: 'o' :: 'n' :: '\n' ::
        (s.data ++ ['\n', '`', '`', '`'])).length = s.data.length + 12 by
    simp [List.length_append]]
  rw [stripFenceLangAux_fenced s.data hs]
  rfl

/-- The backtick scan is the identity on backtick-free input. -/
theorem stripTicksAux_free (l : List Char) (fuel : Nat) (hf : l.length ≤ fuel)
    (hl : ∀ c ∈ l, c ≠ '`') : stripTicksAux fuel l = l := by
  induction l generalizing fuel with
  | nil => cases fuel <;> rfl
  | cons c l ih =>
    have hc : c ≠ '`' := hl c (List.mem_cons_self c l)
    have hl' : ∀ x ∈ l, x ≠ '`' := fun x hx => hl x (List.mem_cons_of_mem c hx)
    cases fuel with
    | zero => simp at hf
    | succ fuel =>
      have hf' : l.length ≤ fuel := by
        simp only [List.length_cons] at hf
        omega
      simp only [stripTicksAux, hc, false_and, if_false]
      rw [ih fuel hf' hl']

/-- String-level version: `replace(/```/g, '')` is the identity on a
backtick-free string. -/
theorem stripTicks_free_str (s : String) (hs : ∀ c ∈ s.data, c ≠ '`') :
    stripTicks s = s := by
  simp only [stripTicks]
  rw [stripTicksAux_free s.data s.data.length le_rfl hs]

/-- Trimming absorbs a trailing newline. -/
theorem jsTrim_append_nl (s : String) : jsTrim (s ++ "\n") = jsTrim s := by
  have hw : isJsWsChar '\n' = true := rfl
  simp only [jsTrim, trimList]
  rw [show (s ++ "\n").data = s.data ++ ['\n'] from rfl]
  rw [List.reverse_append]
  simp only [List.reverse_cons, List.reverse_nil, List.nil_append, List.singleton_append]
  rw [List.dropWhile_cons]
  simp [hw]

/-- The full `handler2` cleanup on a backtick-free payload wrapped in
`` ```json `` fencing equals the trimmed payload. -/
theorem cleanText2_fenced (s : String) (hs : ∀ c ∈ s.data, c ≠ '`') :
    cleanText2 ("```json\n" ++ s ++ "\n```") = jsTrim s := by
  have hs' : ∀ c ∈ (s ++ "\n").data, c ≠ '`' := by
    intro c hc
    rw [show (s ++ "\n").data = s.data ++ ['\n'] from rfl] at hc
    rcases List.mem_append.mp hc with h | h
    · exact hs c h
    · simp only [List.mem_singleton] at h
      subst h
      decide
  rw [cleanText2, stripFenceLang_fenced s hs, stripTicks_free_str _ hs', jsTrim_append_nl]

/-- C8: on a successful `market_data` upstream response whose text is
a (backtick-free) payload wrapped in markdown code fences, the
retry-enabled handler strips the fencing and surrounding whitespace;
if the remaining text parses as JSON the handler answers 200 with the
parsed object as the body, and if it does not, the handler answers
500 with the shape-error message — not a transport error. -/
theorem c8_market_data_fenced_roundtrip (u : Nat → UpstreamResult) (k s : String)
    (hk : jsTrim k ≠ "") (hs : ∀ c ∈ s.data, c ≠ '`')
    (hok : respOk (u 0).status = true)
    (ht : (u 0).text = some ("```json\n" ++ s ++ "\n```")) :
    (∀ v : Json, jsonParse (jsTrim s) = .ok v →
      handler2 "POST" (some k) (.objB (.obj [("type", .str "market_data")])) u =
        ⟨200, .jsonB v,
         [⟨k, "今日の市場の主要指標を教えてください。", .str marketInstr2, "application/json"⟩], []⟩) ∧
    (∀ e : String, jsonParse (jsTrim s) = .error e →
      handler2 "POST" (some k) (.objB (.obj [("type", .str "market_data")])) u =
        ⟨500, .errB shapeErrMsg2,
         [⟨k, "今日の市場の主要指標を教えてください。", .str marketInstr2, "application/json"⟩], []⟩) := by
  have hrun : handler2 "POST" (some k) (.objB (.obj [("type", .str "market_data")])) u =
      attachKey k (handler2Body (.obj [("type", .str "market_data")]) u) := by
    rw [handler2_guards k _ u hk]
    rfl
  have hfin : handler2Body (.obj [("type", .str "market_data")]) u =
      (let p := finalize2 true (u 0)
       ⟨p.1, p.2,
        [⟨"今日の市場の主要指標を教えてください。", .str marketInstr2, "application/json"⟩], []⟩) := by
    show (match loopGo u (maxRetries + 1) 0 0 [] with
      | (calls, sleeps, .errRet st m) =>
        (⟨st, .errB m,
          List.replicate calls ⟨"今日の市場の主要指標を教えてください。", .str marketInstr2, "application/json"⟩,
          sleeps⟩ : CoreOut)
      | (calls, sleeps, .fellThrough) =>
        ⟨429, .errB rateLimitMsg,
          List.replicate calls ⟨"今日の市場の主要指標を教えてください。", .str marketInstr2, "application/json"⟩,
          sleeps⟩
      | (calls, sleeps, .ok r) =>
        let p := finalize2 true r
        ⟨p.1, p.2,
          List.replicate calls ⟨"今日の市場の主要指標を教えてください。", .str marketInstr2, "application/json"⟩,
          sleeps⟩) = _
    rw [loopGo_break_ok u maxRetries 0 0 [] hok]
    rfl
  have hclean : finalize2 true (u 0) =
      (match jsonParse (jsTrim s) with
       | .ok v => (200, .jsonB v)
       | .error _ => (500, .errB shapeErrMsg2)) := by
    simp only [finalize2, ht, Option.getD_some, if_true]
    rw [cleanText2_fenced s hs]
  constructor
  · intro v hv
    rw [hrun, hfin]
    simp only [hclean, hv]
    rfl
  · intro e he
    rw [hrun, hfin]
    simp only [hclean, he]
    rfl

/-- C8 witness: the theorem at a concrete fenced `market_data`
payload. -/
theorem c8_market_data_fenced_roundtrip_witness :
    handler2 "POST" (some "key") (.objB (.obj [("type", .str "market_data")]))
      (fun _ => ⟨200, none, some "```json\n\x7b\"fgValue\":42\x7d\n```"⟩) =
      ⟨200, .jsonB (.obj [("fgValue", .num 42)]),
       [⟨"key", "今日の市場の主要指標を教えてください。", .str marketInstr2, "application/json"⟩], []⟩ :=
  (c8_market_data_fenced_roundtrip
    (fun _ => ⟨200, none, some "```json\n\x7b\"fgValue\":42\x7d\n```"⟩)
    "key" "\x7b\"fgValue\":42\x7d"
    (by decide) (by decide) rfl rfl).1 _ rfl

/-- C9: the response the caller sees (status, body, and even the
sleep trace) is identical across two runs that differ only in the
credential, for every method, request body and upstream behavior —
so no error message (nor any response) can contain the credential
value.  The guard hypotheses only require both credentials to be
non-blank, since a blank credential is rejected up front with a fixed
message that also does not mention the credential. -/
theorem c9_credential_noninterference (k1 k2 method : String) (rb : ReqBody)
    (u : Nat → UpstreamResult) (h1 : jsTrim k1 ≠ "") (h2 : jsTrim k2 ≠ "") :
    (handler2 method (some k1) rb u).status = (handler2 method (some k2) rb u).status ∧
    (handler2 method (some k1) rb u).body = (handler2 method (some k2) rb u).body ∧
    (handler2 method (some k1) rb u).sleeps = (handler2 method (some k2) rb u).sleeps := by
  have e1 : (jsTrim k1 == "") = false := by simp [h1]
  have e2 : (jsTrim k2 == "") = false := by simp [h2]
  by_cases hm : (method != "POST") = true
  · simp [handler2, hm]
  · simp only [Bool.not_eq_true] at hm
    simp [handler2, hm, e1, e2, attachKey]

/-- C9 witness: the theorem at two concrete credentials and a
concrete failing upstream. -/
theorem c9_credential_noninterference_witness :
    (handler2 "POST" (some "alpha") (.objB (.obj []))
        (fun _ => ⟨500, some "err", none⟩)).status =
      (handler2 "POST" (some "beta") (.objB (.obj []))
        (fun _ => ⟨500, some "err", none⟩)).status ∧
    (handler2 "POST" (some "alpha") (.objB (.obj []))
        (fun _ => ⟨500, some "err", none⟩)).body =
      (handler2 "POST" (some "beta") (.objB (.obj []))
        (fun _ => ⟨500, some "err", none⟩)).body ∧
    (handler2 "POST" (some "alpha") (.objB (.obj []))
        (fun _ => ⟨500, some "err", none⟩)).sleeps =
      (handler2 "POST" (some "beta") (.objB (.obj []))
        (fun _ => ⟨500, some "err", none⟩)).sleeps :=
  c9_credential_noninterference "alpha" "beta" "POST" _ _ (by decide) (by decide)

/-- C10: if the upstream call succeeds but the response lacks the
nested `candidates[0].content.parts[0].text` payload, a
freeText-category request still gets 200 with body `{text: ""}` from
the retry-enabled handler (the `|| ""` fallback), rather than an
error. -/
theorem c10_missing_payload_yields_empty_text (u : Nat → UpstreamResult) (k : String)
    (j : Json) (hk : jsTrim k ≠ "") (hj : j ≠ .null)
    (hfree : (classify2 (getField j "type") (getField j "query")
        (getField j "prompt")).isJsonResponse = false)
    (hok : respOk (u 0).status = true) (ht : (u 0).text = none) :
    (handler2 "POST" (some k) (.objB j) u).status = 200 ∧
    (handler2 "POST" (some k) (.objB j) u).body = .textB (some "") := by
  have hrun : handler2 "POST" (some k) (.objB j) u = attachKey k (handler2Body j u) := by
    rw [handler2_guards k _ u hk]
    show attachKey k (handler2Parsed j u) = _
    rw [handler2Parsed_ne_null j u hj]
  refine ⟨?_, ?_⟩ <;>
  · rw [hrun]
    simp only [handler2Body]
    rw [loopGo_break_ok u maxRetries 0 0 [] hok]
    simp only [hfree, finalize2, ht, Option.getD_none, Bool.false_eq_true, if_false]
    rfl

/-- C10 witness: the theorem at a concrete payload-less ok
response. -/
theorem c10_missing_payload_yields_empty_text_witness :
    (handler2 "POST" (some "key") (.objB (.obj []))
        (fun _ => ⟨200, none, none⟩)).status = 200 ∧
    (handler2 "POST" (some "key") (.objB (.obj []))
        (fun _ => ⟨200, none, none⟩)).body = .textB (some "") :=
  c10_missing_payload_yields_empty_text _ "key" (.obj []) (by decide)
    (by intro h; cases h) rfl rfl rfl

/-! ### Sanity checks of the embeddings on concrete inputs -/

/-- Sanity check of the embedding on a concrete input. -/
theorem sanity_check_1 : jsonParse "\x7b\"type\": \"ranking\"\x7d" = .ok (.obj [("type", .str "ranking")]) := by rfl

/-- Sanity check of the embedding on a concrete input. -/
theorem sanity_check_2 : jsonParse " \x7b\"a\": [1, -2, null], \"b\": \x7b\x7d\x7d " =
    .ok (.obj [("a", .arr [.num 1, .num (-2), .null]), ("b", .obj [])]) := by rfl

/-- Sanity check of the embedding on a concrete input. -/
theorem sanity_check_3 : (jsonParse "\x7bbad").isOk = false := by rfl

/-- Sanity check of the embedding on a concrete input. -/
theorem sanity_check_4 : jsonParse "\"a\\nb\"" = .ok (.str "a\nb") := by rfl

/-- Sanity check of the embedding on a concrete input. -/
theorem sanity_check_5 : cleanText2 "```json\n\x7b\"fgValue\":42\x7d\n```" = "\x7b\"fgValue\":42\x7d" := by rfl

/-- Sanity check of the embedding on a concrete input. -/
theorem sanity_check_6 : cleanText2 "  hello  " = "hello" := by rfl

/-- Sanity check of the embedding on a concrete input. -/
theorem sanity_check_7 : cleanText2 "````x" = "`x" := by rfl

/-- Sanity check of the embedding on a concrete input. -/
theorem sanity_check_8 : stripFenceLang "```HTML\ntable" = "table" := by rfl

/-- Sanity check of the embedding on a concrete input. -/
theorem sanity_check_9 : cleanText1 "```json\n\x7b\"a\":1\x7d\n```" = "\x7b\"a\":1\x7d" := by rfl

/-- Sanity check of the embedding on a concrete input. -/
theorem sanity_check_10 : cleanText1 "  \x7b\"a\":1\x7d  " = "  \x7b\"a\":1\x7d  " := by rfl

/-- Sanity check of the embedding on a concrete input. -/
theorem sanity_check_11 : cleanText1 "```\n\x7b\"a\":1\x7d\n```" = "```\n\x7b\"a\":1\x7d\n```" := by rfl

/-- Sanity check of the embedding on a concrete input. -/
theorem sanity_check_12 :
    (handler2 "POST" (some "k") (.objB (.obj [("type", .str "market_data")]))
      (fun _ => ⟨200, none, some "```json\n\x7b\"fgValue\":42\x7d\n```"⟩)).body =
      .jsonB (.obj [("fgValue", .num 42)]) := by rfl

/-- Sanity check of the embedding on a concrete input. -/
theorem sanity_check_13 :
    handler2 "POST" (some "k") (.objB (.obj []))
      (fun i => if i = 0 then ⟨429, some "slow down", none⟩ else ⟨200, none, some "hi"⟩) =
      ⟨200, .textB (some "hi"),
        List.replicate 2 ⟨"k", "現在の市場トレンドについて教えてください。", .str freeformInstr2, "text/plain"⟩,
        [1000]⟩ := by rfl

/-- Sanity check of the embedding on a concrete input. -/
theorem sanity_check_14 :
    (handler2 "GET" (some "k") (.objB (.obj [])) (fun _ => ⟨200, none, some "x"⟩)).status = 405 := by
  rfl

/-- Sanity check of the embedding on a concrete input. -/
theorem sanity_check_15 :
    (handler1 "POST" (some "k") (.objB (.obj [("query", .str "AAPL")]))
      (fun _ => ⟨200, none, some "text out"⟩)) =
      ⟨200, .textB (some "text out"),
        [⟨"k", "対象: AAPL", .str freeformInstr1, "text/plain"⟩], []⟩ := by rfl

/-- Sanity check of the embedding on a concrete input. -/
theorem sanity_check_16 :
    (handler1 "POST" (some "k") (.objB (.obj [])) (fun _ => ⟨500, some "boom", none⟩)).body =
      .errB "Gemini APIへの通信に失敗しました。" := by rfl


/-- Sanity check: the parser rejects leading-zero numerals, raw
control characters in strings, and incomplete fraction/exponent
notation, as `JSON.parse` does. -/
theorem sanity_check_parser_rejects :
    (jsonParse "01").isOk = false ∧
    (jsonParse "\"a\x01b\"").isOk = false ∧
    (jsonParse "1.").isOk = false ∧
    (jsonParse "1e").isOk = false ∧
    (jsonParse "\x7b\"a\": 01\x7d").isOk = false := by
  refine ⟨rfl, rfl, rfl, rfl, rfl⟩

/-- Sanity check: the parser accepts fraction/exponent numerals, as
`JSON.parse` does, keeping their exact lexemes. -/
theorem sanity_check_parser_accepts_decimals :
    jsonParse "\x7b\"fgValue\":42.5\x7d" = .ok (.obj [("fgValue", .numNonInt "42.5")]) ∧
    jsonParse "[1.5, -2e3, 0.0]" =
      .ok (.arr [.numNonInt "1.5", .numNonInt "-2e3", .numNonInt "0.0"]) := by
  refine ⟨rfl, rfl⟩

/-- Sanity check: a `market_data` upstream text of fenced `01` is
rejected by `JSON.parse` and yields the 500 shape error, while fenced
`{"fgValue":42.5}` parses and yields 200 with the parsed object. -/
theorem sanity_check_fenced_decimals :
    (handler2 "POST" (some "key") (.objB (.obj [("type", .str "market_data")]))
        (fun _ => ⟨200, none, some "```json\n01\n```"⟩)).status = 500 ∧
    (handler2 "POST" (some "key") (.objB (.obj [("type", .str "market_data")]))
        (fun _ => ⟨200, none, some "```json\n01\n```"⟩)).body = .errB shapeErrMsg2 ∧
    (handler2 "POST" (some "key") (.objB (.obj [("type", .str "market_data")]))
        (fun _ => ⟨200, none, some "```json\n\x7b\"fgValue\":42.5\x7d\n```"⟩)).status = 200 ∧
    (handler2 "POST" (some "key") (.objB (.obj [("type", .str "market_data")]))
        (fun _ => ⟨200, none, some "```json\n\x7b\"fgValue\":42.5\x7d\n```"⟩)).body =
      .jsonB (.obj [("fgValue", .numNonInt "42.5")]) := by
  refine ⟨rfl, rfl, rfl, rfl⟩

/-- Sanity check: an upstream failure whose error body reports an
empty message falls back to the generic `'API通信エラー'` (the `||`
truthiness), both for a present-but-empty and for an absent message. -/
theorem sanity_check_empty_error_message_fallback :
    (handler2 "POST" (some "key") (.objB (.obj []))
        (fun _ => ⟨500, some "", none⟩)).body = .errB "API通信エラー" ∧
    (handler2 "POST" (some "key") (.objB (.obj []))
        (fun _ => ⟨500, none, none⟩)).body = .errB "API通信エラー" := by
  refine ⟨rfl, rfl⟩
